import Mathlib

/-!
Shallow embedding of the scoring-and-aggregation core of the cv-scorer
repository (src/modules/ai_scoring.py, data_handling.py, filters.py,
batch_processing.py), together with theorems settling the specification
claims about it.

Modelling conventions:
* Python floats are modelled as rationals.
* Python dicts used as records become structures; the session-scoped score
  cache (a dict keyed by strings) becomes an association list where insertion
  prepends, so lookup returns the most recent binding, matching dict
  assignment semantics.
* Fallible Python code (KeyError, ZeroDivisionError) is modelled with
  Except; the message records which exception the source raises.
* The external oracle (OpenAI chat completion) is abstracted by the reply it
  produces for one call: either a reply string or a raised exception. The
  prompt text built by the source is a deterministic function of the same
  inputs and does not influence any claim, so it is elided.
* Wall-clock time (time.time()) is passed explicitly as a rational argument.
-/

deriving instance DecidableEq for Except

namespace CVScorer

/-- A job requirement, from the Python dict with keys text, type, weight
(src/modules: requirements are dicts with string fields; type is the string
boolean or score, weight is the string Low, Medium or High). -/
structure Requirement where
  text : String
  type : String
  weight : String
deriving Repr, DecidableEq

/-- One per-requirement score record, as built in
src/modules/batch_processing.py lines 115-120: keys requirement, score,
priority, type. -/
structure ScoreRecord where
  requirement : String
  score : ℚ
  priority : String
  type : String
deriving Repr, DecidableEq

/-- The session score cache st.session_state.score_cache, a dict from string
keys to numeric scores. -/
abbrev Cache := List (String × ℚ)

/-- Dict lookup: the most recently inserted binding for the key wins. -/
def cacheLookup (c : Cache) (k : String) : Option ℚ :=
  match c with
  | [] => none
  | (q, v) :: rest => if q = k then some v else cacheLookup rest k

/-- Dict assignment st.session_state.score_cache[key] = value. -/
def cacheInsert (c : Cache) (k : String) (v : ℚ) : Cache :=
  (k, v) :: c

/-- Cache key derivation, src/modules/ai_scoring.py lines 18-26. The source
builds the colon-separated string below and then returns its md5 hex digest.
md5 is a fixed deterministic function of the string, so equality of the
pre-hash strings is preserved by it; every claim about keys in this
development is an equality of keys, so we model the key as the pre-hash
string itself. -/
def get_cache_key (requirement : Requirement) (cv_text : String)
    (model : String := "gpt-4o-mini") : String :=
  model ++ (":") ++ requirement.text ++ (":") ++ requirement.type ++ (":") ++
    requirement.weight ++ (":") ++ (cv_text.take 1000)

/-- Numeric value of a list of decimal digit characters. -/
def digitsToNat (ds : List Char) : ℕ :=
  ds.foldl (fun acc c => acc * 10 + (c.toNat - (Char.toNat ('0')))) 0

/-- Parse a nonempty all-digit character list. -/
def parseDigits (ds : List Char) : Option ℕ :=
  if ds ≠ [] ∧ ds.all (fun c => c.isDigit) then some (digitsToNat ds) else none

/-- The str.strip() method: remove leading and trailing whitespace. -/
def pyStrip (s : String) : String :=
  String.mk
    (((s.toList.dropWhile Char.isWhitespace).reverse.dropWhile
      Char.isWhitespace).reverse)

/-- Model of the Python float(s) conversion on its decimal-numeral fragment:
surrounding whitespace, an optional sign, then either digits, digits.digits,
digits. or .digits; anything else raises ValueError, modelled as none.
(Python float() also accepts exponents and the inf/nan spellings; no claim
distinguishes those replies from other parse successes or failures, so they
are not modelled.) -/
def pyFloat (s : String) : Option ℚ :=
  let cs := (pyStrip s).toList
  let body :=
    match cs with
    | '-' :: rest => rest
    | '+' :: rest => rest
    | _ => cs
  let neg : Bool :=
    match cs with
    | '-' :: _ => true
    | _ => false
  let ip := body.takeWhile (fun c => c != '.')
  let tail := body.dropWhile (fun c => c != '.')
  let mag : Option ℚ :=
    match tail with
    | [] => (parseDigits ip).map (fun n => (n : ℚ))
    | _ :: fp =>
      if fp.contains '.' then none
      else if ip.all (fun c => c.isDigit) ∧ fp.all (fun c => c.isDigit) ∧
          (ip ≠ [] ∨ fp ≠ []) then
        some ((digitsToNat ip : ℚ) + (digitsToNat fp : ℚ) / (10 ^ fp.length))
      else none
  mag.map (fun m => if neg then -m else m)

/-- Python round() on a rational: round half to even. -/
def pyRound (q : ℚ) : ℤ :=
  let f := ⌊q⌋
  let frac := q - f
  if frac < 1/2 then f
  else if 1/2 < frac then f + 1
  else if f % 2 = 0 then f else f + 1

/-- Python int() truncation toward zero on a rational. -/
def pyInt (q : ℚ) : ℤ :=
  if 0 ≤ q then ⌊q⌋ else -⌊-q⌋

/-- Outcome of one oracle call: the reply text, or the message of a raised
exception. -/
abbrev OracleReply := Except String String

/-- Clamping of a parsed raw value, src/modules/ai_scoring.py lines 73-76:
boolean scores are rounded then clamped to 0..1, continuous scores clamped
to 0..100. -/
def clampScore (reqType : String) (raw : ℚ) : ℚ :=
  if reqType == "boolean" then min 1 (max 0 ((pyRound raw : ℤ) : ℚ))
  else min 100 (max 0 raw)

/-- Single-model scoring adapter get_openai_score,
src/modules/ai_scoring.py lines 36-86. Checks the cache first; on a miss it
consults the oracle, converts the stripped reply with float(), clamps by
requirement type and stores the result in the cache. A conversion failure
(ValueError) returns 0, and any raised exception from the API call is caught
and also returns 0; neither failure path writes to the cache. Returns the
score together with the cache state after the call. -/
def get_openai_score (requirement : Requirement) (cv_text : String)
    (oracle : OracleReply) (cache : Cache) : ℚ × Cache :=
  let cache_key := get_cache_key requirement cv_text
  match cacheLookup cache cache_key with
  | some v => (v, cache)
  | none =>
    match oracle with
    | .error _ => (0, cache)
    | .ok reply =>
      match pyFloat (pyStrip reply) with
      | none => (0, cache)
      | some raw =>
        let score := clampScore requirement.type raw
        (score, cacheInsert cache cache_key score)

/-- Reduction step of the voting adapter, src/modules/ai_scoring.py lines
162-179: for boolean requirements, count the answers equal to 1 and equal
to 0 and return 1 exactly when the ones outnumber the zeros; otherwise sort
the collected answers and take the median, averaging the two middle values
for an even count. Python list.sort() produces the unique ascending
rearrangement of a list of numbers, modelled by insertionSort. Indexing
outside the sorted list (possible only for an empty answer list, which the
source never builds since every model appends exactly one answer) raises
IndexError, modelled as none. -/
def voting_reduce (reqType : String) (results : List ℚ) : Option ℚ :=
  if reqType == "boolean" then
    let ones := results.count 1
    let zeros := results.count 0
    some (if ones > zeros then 1 else 0)
  else
    let sorted := results.insertionSort (fun a b => a ≤ b)
    if results.length % 2 = 0 then
      match sorted.get? (results.length / 2 - 1), sorted.get? (results.length / 2) with
      | some a, some b => some ((a + b) / 2)
      | _, _ => none
    else sorted.get? (results.length / 2)

/-- Priority weight dict of src/modules/data_handling.py line 10; a label
outside the dict raises KeyError, modelled as none. -/
def weight_map (priority : String) : Option ℚ :=
  if priority = "Low" then some 1
  else if priority = "Medium" then some 2
  else if priority = "High" then some 3
  else none

/-- The loop of calculate_weighted_score, src/modules/data_handling.py lines
12-20: builds the weighted value list and the weight list in order, raising
KeyError at the first record whose priority is not in the weight dict. -/
def collectWeights : List ScoreRecord → Except String (List ℚ × List ℚ)
  | [] => .ok ([], [])
  | s :: rest =>
    match weight_map s.priority with
    | none => .error (("KeyError: ") ++ s.priority)
    | some w =>
      let value := if s.type == "boolean" then s.score * 100 else s.score
      match collectWeights rest with
      | .error e => .error e
      | .ok (ws, wts) => .ok (value * w :: ws, w :: wts)

/-- Weighted aggregator calculate_weighted_score,
src/modules/data_handling.py lines 7-25: weighted mean of the per-record
values (boolean scores scaled by 100) with weights Low 1, Medium 2, High 3;
returns 0 when the weight sum is 0; raises KeyError on an unknown priority
label. -/
def calculate_weighted_score (scores : List ScoreRecord) : Except String ℚ :=
  match collectWeights scores with
  | .error e => .error e
  | .ok (weighted_scores, weights) =>
    if weights.sum = 0 then .ok 0
    else .ok (weighted_scores.sum / weights.sum)

/-- Weight of one record when its priority label is valid (spec-side helper
for stating the aggregation formula). -/
def weightOf (s : ScoreRecord) : ℚ :=
  (weight_map s.priority).getD 0

/-- Normalized value of one record: boolean scores scaled by 100 (spec-side
helper for stating the aggregation formula). -/
def valueOf (s : ScoreRecord) : ℚ :=
  if s.type == "boolean" then s.score * 100 else s.score

/-- Filter parameters, src/modules/filters.py: min_score,
selected_requirements, must_meet_all_boolean. -/
structure FilterParams where
  min_score : ℚ
  selected_requirements : List String
  must_meet_all_boolean : Bool
deriving Repr

/-- Loop body of apply_filters, src/modules/filters.py lines 175-201, for a
single document: none means the document is dropped (continue), some gives
the records kept for it. Propagates the KeyError that
calculate_weighted_score may raise. -/
def filter_one (params : FilterParams) (scores : List ScoreRecord) :
    Except String (Option (List ScoreRecord)) :=
  match calculate_weighted_score scores with
  | .error e => .error e
  | .ok cv_score =>
    if cv_score < params.min_score then .ok none
    else if params.must_meet_all_boolean &&
        !((scores.filter (fun s => s.type == "boolean")).all
          (fun s => s.score == 1)) then .ok none
    else
      let filtered_scores :=
        if params.selected_requirements.isEmpty then scores
        else scores.filter
          (fun s => params.selected_requirements.contains s.requirement)
      if !params.selected_requirements.isEmpty && filtered_scores.isEmpty then
        .ok none
      else .ok (some filtered_scores)

/-- apply_filters, src/modules/filters.py lines 171-203: keep each document
that passes all three filters, with its records replaced by the projection
when specific requirements are selected. The result dict is modelled as the
association list of kept documents in iteration order. -/
def apply_filters : List (String × List ScoreRecord) → FilterParams →
    Except String (List (String × List ScoreRecord))
  | [], _ => .ok []
  | (cv_name, scores) :: rest, params =>
    match filter_one params scores with
    | .error e => .error e
    | .ok none => apply_filters rest params
    | .ok (some fs) =>
      match apply_filters rest params with
      | .error e => .error e
      | .ok out => .ok ((cv_name, fs) :: out)

/-- Per-document keep decision as the specification states it: keep iff the
composite is at least min_score, every boolean record equals 1 whenever
must_meet_all_boolean is set, and the projection onto the selected
requirements is nonempty whenever some requirements are selected; the kept
records are the projection when a selection is active. Written from the
claim wording, to be compared with filter_one. -/
def specKeep (params : FilterParams) (scores : List ScoreRecord) :
    Option (List ScoreRecord) :=
  if (calculate_weighted_score scores).toOption.getD 0 ≥ params.min_score ∧
      (params.must_meet_all_boolean = true →
        ∀ s ∈ scores, s.type = "boolean" → s.score = 1) ∧
      (params.selected_requirements ≠ [] →
        scores.filter
          (fun s => params.selected_requirements.contains s.requirement) ≠ []) then
    some (if params.selected_requirements ≠ [] then
      scores.filter
        (fun s => params.selected_requirements.contains s.requirement)
      else scores)
  else none

/-- Batch progress tracker state, src/modules/batch_processing.py lines
9-20. Wall-clock instants are rationals passed explicitly to the methods. -/
structure Tracker where
  start_time : ℚ
  total_files : ℕ
  total_requirements : ℕ
  total_operations : ℕ
  completed_operations : ℕ
  file_times : List ℚ
  req_times : List ℚ
  current_file_start : Option ℚ
  current_req_start : Option ℚ
deriving Repr

/-- Constructor BatchProcessingTracker.__init__: total_operations is
total_files * total_requirements and the completed counter starts at 0. -/
def Tracker.init (now : ℚ) (total_files total_requirements : ℕ) : Tracker :=
  { start_time := now
    total_files := total_files
    total_requirements := total_requirements
    total_operations := total_files * total_requirements
    completed_operations := 0
    file_times := []
    req_times := []
    current_file_start := none
    current_req_start := none }

/-- start_file, lines 22-24. -/
def Tracker.start_file (t : Tracker) (now : ℚ) : Tracker :=
  { t with current_file_start := some now }

/-- complete_file, lines 26-31. -/
def Tracker.complete_file (t : Tracker) (now : ℚ) : Tracker :=
  match t.current_file_start with
  | some s =>
    { t with file_times := t.file_times ++ [now - s], current_file_start := none }
  | none => t

/-- start_requirement, lines 33-35. -/
def Tracker.start_requirement (t : Tracker) (now : ℚ) : Tracker :=
  { t with current_req_start := some now }

/-- complete_requirement, lines 37-43: records the elapsed time when a
requirement was started and unconditionally increments the completed
operation counter. -/
def Tracker.complete_requirement (t : Tracker) (now : ℚ) : Tracker :=
  let t1 :=
    match t.current_req_start with
    | some s =>
      { t with req_times := t.req_times ++ [now - s], current_req_start := none }
    | none => t
  { t1 with completed_operations := t1.completed_operations + 1 }

/-- Return value of get_estimated_time_remaining: the string Calculating...
or a formatted timedelta of a whole number of seconds. -/
inductive EtaReport
  | calculating
  | estimate (seconds : ℤ)
deriving Repr, DecidableEq

/-- get_estimated_time_remaining, src/modules/batch_processing.py lines
45-58: reports calculating before the first completed operation; otherwise
divides the completed count by the elapsed time (a zero elapsed time would
raise ZeroDivisionError) and, when the rate is positive, reports the
truncated remaining seconds. -/
def Tracker.get_estimated_time_remaining (t : Tracker) (now : ℚ) :
    Except String EtaReport :=
  if t.completed_operations = 0 then .ok .calculating
  else
    let elapsed := now - t.start_time
    if elapsed = 0 then .error ("ZeroDivisionError")
    else
      let rate := (t.completed_operations : ℚ) / elapsed
      let remaining_operations :=
        (t.total_operations : ℚ) - (t.completed_operations : ℚ)
      if rate > 0 then .ok (.estimate (pyInt (remaining_operations / rate)))
      else .ok .calculating

/-- get_progress_percentage, src/modules/batch_processing.py lines 60-62:
unguarded division by total_operations; a tracker with total_operations = 0
raises ZeroDivisionError. -/
def Tracker.get_progress_percentage (t : Tracker) : Except String ℚ :=
  if t.total_operations = 0 then .error ("ZeroDivisionError")
  else .ok ((t.completed_operations : ℚ) / (t.total_operations : ℚ) * 100)

/-- Extraction outcome for one document, the opaque process_pdf collaborator:
either the extracted text (possibly empty, which Python treats as falsy) or
a raised exception. -/
abbrev Extraction := Except String String

/-- True when extraction returned usable (nonempty) text, so that the
scoring loop of process_single_file runs. -/
def extraction_ok : Extraction → Bool
  | .ok s => !(s == "")
  | .error _ => false

/-- The requirement loop of process_single_file,
src/modules/batch_processing.py lines 105-127: for each requirement, start
the timer, obtain a score (the scoring adapters catch every oracle failure
and always return a number, so the per-requirement scorer is total), build
the record and complete the requirement on the tracker. -/
def score_requirements (scorer : Requirement → String → ℚ) (cv_text : String) :
    List Requirement → Tracker → ℚ → Tracker × List ScoreRecord
  | [], t, _ => (t, [])
  | req :: rest, t, now =>
    let t1 := t.start_requirement now
    let score := scorer req cv_text
    let record : ScoreRecord :=
      { requirement := req.text, score := score,
        priority := req.weight, type := req.type }
    let t2 := t1.complete_requirement now
    let r := score_requirements scorer cv_text rest t2 now
    (r.1, record :: r.2)

/-- process_single_file, src/modules/batch_processing.py lines 75-140: mark
the file start; if extraction raises, the exception is caught and the
function returns None after completing the file timer, without any
requirement-level tracker updates; if extraction yields falsy (empty) text
the scoring block is skipped with the same effect; otherwise every
requirement is scored and completed on the tracker. -/
def process_single_file (scorer : Requirement → String → ℚ)
    (reqs : List Requirement) (extraction : Extraction) (t : Tracker)
    (now : ℚ) : Tracker × Option (List ScoreRecord) :=
  let t0 := t.start_file now
  match extraction with
  | .error _ => (t0.complete_file now, none)
  | .ok cv_text =>
    if cv_text == "" then (t0.complete_file now, none)
    else
      let r := score_requirements scorer cv_text reqs t0 now
      (r.1.complete_file now, some r.2)

/-- The per-document loop of process_files, src/modules/batch_processing.py
lines 142-209, restricted to its effect on the tracker and on the result
dict: each document is handed to process_single_file and its scores are
added to the results only when the returned list is truthy (non-None and
nonempty). -/
def process_files (scorer : Requirement → String → ℚ)
    (reqs : List Requirement) :
    List (String × Extraction) → Tracker → ℚ →
      Tracker × List (String × List ScoreRecord)
  | [], t, _ => (t, [])
  | (filename, extraction) :: rest, t, now =>
    let r1 := process_single_file scorer reqs extraction t now
    let r2 := process_files scorer reqs rest r1.1 now
    (r2.1,
      match r1.2 with
      | some scores =>
        if scores.isEmpty then r2.2 else (filename, scores) :: r2.2
      | none => r2.2)

/-! ## Helper lemmas -/

lemma collectWeights_ok (scores : List ScoreRecord)
    (h : ∀ s ∈ scores, (weight_map s.priority).isSome) :
    collectWeights scores =
      .ok (scores.map (fun s => valueOf s * weightOf s), scores.map weightOf) := by
  induction scores with
  | nil => rfl
  | cons s rest ih =>
    have hs := h s (by simp)
    obtain ⟨w, hw⟩ := Option.isSome_iff_exists.mp hs
    have hrest := ih (fun x hx => h x (by simp [hx]))
    simp [collectWeights, hw, hrest, valueOf, weightOf]

lemma calculate_weighted_score_ok (scores : List ScoreRecord)
    (h : ∀ s ∈ scores, (weight_map s.priority).isSome) :
    calculate_weighted_score scores =
      .ok (if (scores.map weightOf).sum = 0 then 0
        else (scores.map (fun s => valueOf s * weightOf s)).sum /
          (scores.map weightOf).sum) := by
  simp only [calculate_weighted_score, collectWeights_ok scores h]
  split <;> rfl

/-! ## C4: the weighted aggregation formula -/

/-- C4: for every sequence of score records with valid priority labels, the
weighted aggregator returns the sum of value times weight divided by the sum
of weights, where the weight maps Low to 1, Medium to 2 and High to 3 and a
boolean score is scaled by 100 before weighting; when the weight sum is 0
(in particular for the empty sequence) it returns 0 rather than raising. -/
theorem c4_weighted_formula (scores : List ScoreRecord)
    (h : ∀ s ∈ scores, (weight_map s.priority).isSome) :
    calculate_weighted_score scores =
      .ok (if (scores.map weightOf).sum = 0 then 0
        else (scores.map (fun s => valueOf s * weightOf s)).sum /
          (scores.map weightOf).sum) :=
  calculate_weighted_score_ok scores h

/-- Concrete input of the C4 example: one met boolean requirement of High
priority and one 50 percent score of Low priority. -/
def exC4 : List ScoreRecord :=
  [⟨"a", 1, "High", "boolean"⟩, ⟨"b", 50, "Low", "score"⟩]

/-- C4 witness: the example composite equals (100 * 3 + 50 * 1) / 4 = 87.5. -/
theorem c4_weighted_formula_witness :
    (∀ s ∈ exC4, (weight_map s.priority).isSome) ∧
      calculate_weighted_score exC4 = .ok (175 / 2) :=
  ⟨by decide, (c4_weighted_formula exC4 (by decide)).trans
    (congrArg Except.ok
      (by simp [exC4, weightOf, valueOf, weight_map]; norm_num))⟩

/-! ## C9: unknown priority labels fail fast -/

lemma collectWeights_error (scores : List ScoreRecord)
    (h : ∃ s ∈ scores, weight_map s.priority = none) :
    ∃ e, collectWeights scores = .error e := by
  induction scores with
  | nil => simp at h
  | cons s rest ih =>
    rcases h with ⟨x, hx, hnone⟩
    rcases List.mem_cons.mp hx with hhead | htail
    · subst hhead
      exact ⟨("KeyError: ") ++ x.priority, by simp [collectWeights, hnone]⟩
    · cases hw : weight_map s.priority with
      | none =>
        exact ⟨("KeyError: ") ++ s.priority, by simp [collectWeights, hw]⟩
      | some w =>
        obtain ⟨e, he⟩ := ih ⟨x, htail, hnone⟩
        exact ⟨e, by simp [collectWeights, hw, he]⟩

/-- C9: a score record sequence containing a priority label outside Low,
Medium, High makes the weighted aggregator raise (KeyError) rather than
silently substituting a default weight, while a sequence whose labels are
all valid raises no error. -/
theorem c9_unknown_priority (scores : List ScoreRecord) :
    ((∃ s ∈ scores, weight_map s.priority = none) →
      ∃ e, calculate_weighted_score scores = .error e) ∧
    ((∀ s ∈ scores, (weight_map s.priority).isSome) →
      ∃ v, calculate_weighted_score scores = .ok v) := by
  constructor
  · intro h
    obtain ⟨e, he⟩ := collectWeights_error scores h
    exact ⟨e, by simp [calculate_weighted_score, he]⟩
  · intro h
    exact ⟨_, calculate_weighted_score_ok scores h⟩

/-- C9 witness: the label Urgent raises, while the all-valid example does
not. -/
theorem c9_unknown_priority_witness :
    ((∃ s ∈ [(⟨"a", 1, "Urgent", "boolean"⟩ : ScoreRecord)],
        weight_map s.priority = none) ∧
      (∃ e, calculate_weighted_score
        [(⟨"a", 1, "Urgent", "boolean"⟩ : ScoreRecord)] = .error e)) ∧
    ((∀ s ∈ exC4, (weight_map s.priority).isSome) ∧
      (∃ v, calculate_weighted_score exC4 = .ok v)) :=
  ⟨⟨by decide, (c9_unknown_priority _).1 (by decide)⟩,
   ⟨by decide, (c9_unknown_priority exC4).2 (by decide)⟩⟩

/-! ## C7: ETA before the first completed operation -/

/-- C7: in every tracker state with a zero completed-operations counter, the
estimated-time-remaining query reports Calculating... without performing any
division: the result is the sentinel even at an instant equal to the start
time, where the elapsed-time divisor would be zero. -/
theorem c7_eta_calculating (t : Tracker) (now : ℚ)
    (h : t.completed_operations = 0) :
    t.get_estimated_time_remaining now = .ok .calculating := by
  simp [Tracker.get_estimated_time_remaining, h]

/-- C7 witness: a fresh tracker queried at its own start instant (elapsed
time zero) still reports the sentinel. -/
theorem c7_eta_calculating_witness :
    (Tracker.init 0 3 2).completed_operations = 0 ∧
      (Tracker.init 0 3 2).get_estimated_time_remaining 0 = .ok .calculating :=
  ⟨rfl, c7_eta_calculating (Tracker.init 0 3 2) 0 rfl⟩

/-! ## C10: unguarded division in get_progress_percentage -/

/-- C10: whenever total_operations is nonzero, get_progress_percentage
returns completed over total times 100; the division is unguarded, so a
tracker with total_operations = 0 reaches the ZeroDivisionError branch, and
the constructor sets total_operations to total_files * total_requirements,
so a tracker built with zero files or zero requirements makes that branch
reachable. -/
theorem c10_progress_division (t : Tracker) :
    (t.total_operations ≠ 0 →
      t.get_progress_percentage =
        .ok ((t.completed_operations : ℚ) / (t.total_operations : ℚ) * 100)) ∧
    (t.total_operations = 0 →
      t.get_progress_percentage = .error ("ZeroDivisionError")) ∧
    (∀ now : ℚ, ∀ tf tr : ℕ,
      (Tracker.init now tf tr).total_operations = tf * tr) := by
  refine ⟨fun h => ?_, fun h => ?_, fun _ _ _ => rfl⟩
  · simp [Tracker.get_progress_percentage, h]
  · simp [Tracker.get_progress_percentage, h]

/-- C10 witness: a 3 x 2 tracker reports 0 percent, and a tracker built with
zero files raises ZeroDivisionError. -/
theorem c10_progress_division_witness :
    ((Tracker.init 0 3 2).total_operations ≠ 0 ∧
      (Tracker.init 0 3 2).get_progress_percentage = .ok 0) ∧
    ((Tracker.init 0 0 2).total_operations = 0 ∧
      (Tracker.init 0 0 2).get_progress_percentage =
        .error ("ZeroDivisionError")) :=
  ⟨⟨by decide, ((c10_progress_division (Tracker.init 0 3 2)).1
      (by decide)).trans (congrArg Except.ok (by norm_num [Tracker.init]))⟩,
   ⟨rfl, (c10_progress_division (Tracker.init 0 0 2)).2.1 rfl⟩⟩

/-! ## C8: the cache key depends only on the first 1000 characters -/

/-- C8: the cache key is a deterministic function of the model id, the
requirement text, type and weight, and the first 1000 characters of the
document text: two documents agreeing on their first 1000 characters get
equal keys for equal model and requirement fields, independently of any
later character. -/
theorem c8_cache_key_first1000 (model : String) (req : Requirement)
    (t1 t2 : String) (h : t1.take 1000 = t2.take 1000) :
    get_cache_key req t1 model = get_cache_key req t2 model := by
  simp [get_cache_key, h]

/-- Document text of 1001 characters ending in X. -/
def longDocX : String := String.mk (List.replicate 1000 'a' ++ ['X'])

/-- Document text of 1001 characters ending in Y. -/
def longDocY : String := String.mk (List.replicate 1000 'a' ++ ['Y'])

lemma longDoc_take_eq : longDocX.take 1000 = longDocY.take 1000 := by
  have hd : (longDocX.take 1000).data = (longDocY.take 1000).data := by
    rw [String.data_take, String.data_take]
    show List.take 1000 (List.replicate 1000 'a' ++ ['X']) =
      List.take 1000 (List.replicate 1000 'a' ++ ['Y'])
    rw [List.take_append_of_le_length (by rw [List.length_replicate]),
      List.take_append_of_le_length (by rw [List.length_replicate])]
  exact String.ext hd

/-- C8 witness: two distinct 1001-character documents differing only at
position 1000 produce the same cache key. -/
theorem c8_cache_key_first1000_witness :
    longDocX ≠ longDocY ∧
      longDocX.take 1000 = longDocY.take 1000 ∧
      get_cache_key ⟨"r", "score", "High"⟩ longDocX =
        get_cache_key ⟨"r", "score", "High"⟩ longDocY :=
  ⟨fun h => absurd
      (List.head_eq_of_cons_eq (List.append_cancel_left (congrArg String.data h)))
      (by decide),
    longDoc_take_eq,
    c8_cache_key_first1000 ("gpt-4o-mini") ⟨"r", "score", "High"⟩
      longDocX longDocY longDoc_take_eq⟩

/-! ## C1: failed extraction and the completed-operations counter -/

/-- A scorer standing for either scoring adapter; both catch every oracle
failure and return a number, so any total function is a faithful stand-in
for the purposes of the tracker counter. -/
def c1Scorer : Requirement → String → ℚ := fun _ _ => 50

/-- Two requirements for the 3 x 2 batch of the C1 example. -/
def c1Reqs : List Requirement :=
  [⟨"q1", "score", "High"⟩, ⟨"q2", "boolean", "Low"⟩]

/-- Three documents, the second of which raises during extraction. -/
def c1Docs : List (String × Extraction) :=
  [("a.pdf", .ok ("text a")), ("b.pdf", .error ("bad pdf")),
   ("c.pdf", .ok ("text c"))]

/-- C1 counterexample: a batch of 3 documents and 2 requirements in which
one extraction throws finishes with completed_operations = 4, not 6, and a
progress percentage of 200/3 (about 66.7), not 100: the failed document
contributes no requirement-level completions. -/
theorem c1_counterexample :
    (process_files c1Scorer c1Reqs c1Docs (Tracker.init 0 3 2)
        1).1.completed_operations = 4 ∧
    (4 : ℕ) ≠ 3 * 2 ∧
    (process_files c1Scorer c1Reqs c1Docs (Tracker.init 0 3 2)
        1).1.get_progress_percentage = .ok (200 / 3) ∧
    ((200 : ℚ) / 3) ≠ 100 := by
  have h4 : (process_files c1Scorer c1Reqs c1Docs (Tracker.init 0 3 2)
      1).1.completed_operations = 4 := rfl
  have h6 : (process_files c1Scorer c1Reqs c1Docs (Tracker.init 0 3 2)
      1).1.total_operations = 6 := rfl
  refine ⟨h4, by decide, ?_, by norm_num⟩
  rw [Tracker.get_progress_percentage, h4, h6]
  norm_num

lemma complete_requirement_completed (t : Tracker) (now : ℚ) :
    (t.complete_requirement now).completed_operations =
      t.completed_operations + 1 := by
  cases h : t.current_req_start <;> simp [Tracker.complete_requirement, h]

lemma complete_file_completed (t : Tracker) (now : ℚ) :
    (t.complete_file now).completed_operations = t.completed_operations := by
  cases h : t.current_file_start <;> simp [Tracker.complete_file, h]

lemma score_requirements_completed (scorer : Requirement → String → ℚ)
    (cv_text : String) :
    ∀ (reqs : List Requirement) (t : Tracker) (now : ℚ),
      (score_requirements scorer cv_text reqs t now).1.completed_operations =
        t.completed_operations + reqs.length := by
  intro reqs
  induction reqs with
  | nil => intro t now; rfl
  | cons r rest ih =>
    intro t now
    simp only [score_requirements, ih, complete_requirement_completed,
      Tracker.start_requirement, List.length_cons]
    omega

lemma process_single_file_completed (scorer : Requirement → String → ℚ)
    (reqs : List Requirement) (extraction : Extraction) (t : Tracker)
    (now : ℚ) :
    (process_single_file scorer reqs extraction t now).1.completed_operations =
      t.completed_operations +
        (if extraction_ok extraction then reqs.length else 0) := by
  cases extraction with
  | error e =>
    simp [process_single_file, extraction_ok, complete_file_completed,
      Tracker.start_file]
  | ok s =>
    cases hs : (s == "") with
    | true =>
      simp [process_single_file, extraction_ok, hs, complete_file_completed,
        Tracker.start_file]
    | false =>
      simp [process_single_file, extraction_ok, hs, complete_file_completed,
        score_requirements_completed, Tracker.start_file]

/-- C1 (amended): a document whose extraction raises (or yields no usable
text) contributes no completed operations, so the batch finishes with
completed_operations equal to the starting count plus S x M, where S is the
number of documents whose extraction succeeds with nonempty text and M the
number of requirements; with 3 documents, 2 requirements and one throwing
extraction the counter reaches 4 and the progress percentage 200/3, not 6
and 100. -/
theorem c1_amended_completed (scorer : Requirement → String → ℚ)
    (reqs : List Requirement) :
    ∀ (docs : List (String × Extraction)) (t : Tracker) (now : ℚ),
      (process_files scorer reqs docs t now).1.completed_operations =
        t.completed_operations +
          (docs.countP (fun d => extraction_ok d.2)) * reqs.length := by
  intro docs
  induction docs with
  | nil => intro t now; simp [process_files]
  | cons d rest ih =>
    intro t now
    obtain ⟨filename, extraction⟩ := d
    simp only [process_files, ih, process_single_file_completed,
      List.countP_cons]
    cases hd : extraction_ok extraction
    · simp [hd]
    · simp [hd]
      ring

/-! ## C2: the fallback value of the single-model adapter -/

/-- A score-type requirement used as the C2 counterexample input. -/
def c2Req : Requirement := ⟨"Requires Python", "score", "High"⟩

/-- C2 counterexample: for a requirement of type score, an oracle exception
makes the single-model adapter get_openai_score return 0, not the
type-dependent fallback 50 that the claim states. -/
theorem c2_counterexample :
    c2Req.type = "score" ∧
    (get_openai_score c2Req ("cv text") (.error ("APIConnectionError"))
      []).1 = 0 ∧
    ((0 : ℚ) ≠ 50) :=
  ⟨rfl, rfl, by norm_num⟩

/-- C2 (amended): on a cache miss, if the oracle call raises any exception,
or its reply does not convert to a number, the single-model adapter returns
the fallback value 0 regardless of the requirement type — the 0-or-50
type-dependent fallback exists only in the voting adapter — and no oracle
failure escapes to abort the batch (the adapter is a total function). -/
theorem c2_fallback_zero (req : Requirement) (cv_text : String)
    (cache : Cache)
    (hmiss : cacheLookup cache (get_cache_key req cv_text) = none) :
    (∀ e, get_openai_score req cv_text (.error e) cache = (0, cache)) ∧
    (∀ reply, pyFloat (pyStrip reply) = none →
      get_openai_score req cv_text (.ok reply) cache = (0, cache)) := by
  constructor
  · intro e
    simp [get_openai_score, hmiss]
  · intro reply hr
    simp [get_openai_score, hmiss, hr]

/-- C2 witness: with an empty cache, a raised oracle exception and an
unparsable reply both produce 0 for a score-type requirement. -/
theorem c2_fallback_zero_witness :
    cacheLookup [] (get_cache_key c2Req ("cv")) = none ∧
    get_openai_score c2Req ("cv") (.error ("boom")) [] = (0, []) ∧
    pyFloat (pyStrip ("no digits")) = none ∧
    get_openai_score c2Req ("cv") (.ok ("no digits")) [] = (0, []) :=
  ⟨rfl, (c2_fallback_zero c2Req ("cv") [] rfl).1 ("boom"), rfl,
    (c2_fallback_zero c2Req ("cv") [] rfl).2 ("no digits") rfl⟩

/-! ## C3: cache discipline of the single-model adapter -/

/-- A score-type requirement used as the C3 counterexample input. -/
def c3Req : Requirement := ⟨"r", "score", "High"⟩

/-- C3 counterexample: after a first call that ends in the fallback path
(oracle exception, empty cache), nothing is stored under the fingerprint,
and a second call with the identical fingerprint invokes the oracle again:
its result is the new oracle reply 80, not the cached value the claim
promises. -/
theorem c3_counterexample :
    get_openai_score c3Req ("cv") (.error ("boom")) [] = (0, []) ∧
    (get_openai_score c3Req ("cv") (.ok ("80"))
      (get_openai_score c3Req ("cv") (.error ("boom")) []).2).1 = 80 ∧
    ((80 : ℚ) ≠ 0) :=
  ⟨rfl, rfl, by norm_num⟩

lemma get_openai_score_cache_hit (req : Requirement) (cv_text : String)
    (cache : Cache) (v : ℚ)
    (hhit : cacheLookup cache (get_cache_key req cv_text) = some v) :
    ∀ oracle, get_openai_score req cv_text oracle cache = (v, cache) := by
  intro oracle
  simp [get_openai_score, hhit]

/-- C3 (amended): the adapter looks up the cache before invoking the oracle
(on a hit it returns the cached value unchanged, independently of the
oracle), and stores its result under the fingerprint on success, so a second
call with an identical fingerprint returns the identical cached value
without a second oracle invocation provided the first call succeeded; when
the first call ends in the fallback path nothing is stored, and a later
call invokes the oracle again. -/
theorem c3_cache_discipline (req : Requirement) (cv_text : String)
    (cache : Cache) :
    (∀ v, cacheLookup cache (get_cache_key req cv_text) = some v →
      ∀ oracle, get_openai_score req cv_text oracle cache = (v, cache)) ∧
    (∀ reply raw,
      cacheLookup cache (get_cache_key req cv_text) = none →
      pyFloat (pyStrip reply) = some raw →
      cacheLookup (get_openai_score req cv_text (.ok reply) cache).2
          (get_cache_key req cv_text) =
        some (get_openai_score req cv_text (.ok reply) cache).1 ∧
      (∀ oracle2, get_openai_score req cv_text oracle2
          (get_openai_score req cv_text (.ok reply) cache).2 =
        ((get_openai_score req cv_text (.ok reply) cache).1,
          (get_openai_score req cv_text (.ok reply) cache).2)) ∧
      (get_openai_score req cv_text (.ok reply) cache).2 =
        cacheInsert cache (get_cache_key req cv_text)
          (get_openai_score req cv_text (.ok reply) cache).1) ∧
    (∀ e, cacheLookup cache (get_cache_key req cv_text) = none →
      get_openai_score req cv_text (.error e) cache = (0, cache)) := by
  refine ⟨fun v hv => get_openai_score_cache_hit req cv_text cache v hv,
    fun reply raw hmiss hparse => ?_, fun e hmiss => ?_⟩
  · have hcall : get_openai_score req cv_text (.ok reply) cache =
        (clampScore req.type raw,
          cacheInsert cache (get_cache_key req cv_text)
            (clampScore req.type raw)) := by
      simp [get_openai_score, hmiss, hparse]
    have hlook : cacheLookup
        (cacheInsert cache (get_cache_key req cv_text)
          (clampScore req.type raw)) (get_cache_key req cv_text) =
        some (clampScore req.type raw) := by
      simp [cacheInsert, cacheLookup]
    refine ⟨?_, fun oracle2 => ?_, ?_⟩
    · rw [hcall]
      exact hlook
    · rw [hcall]
      exact get_openai_score_cache_hit req cv_text _ _ hlook oracle2
    · rw [hcall]
  · simp [get_openai_score, hmiss]

/-- C3 witness: concrete successful first call with reply 80 on an empty
cache; the value 80 is stored under the fingerprint and a second call with
a failing oracle still returns (80, unchanged cache). -/
theorem c3_cache_discipline_witness :
    cacheLookup [] (get_cache_key c3Req ("cv")) = none ∧
    pyFloat (pyStrip ("80")) = some 80 ∧
    cacheLookup (get_openai_score c3Req ("cv") (.ok ("80")) []).2
        (get_cache_key c3Req ("cv")) =
      some (get_openai_score c3Req ("cv") (.ok ("80")) []).1 ∧
    get_openai_score c3Req ("cv") (.error ("down"))
        (get_openai_score c3Req ("cv") (.ok ("80")) []).2 =
      ((get_openai_score c3Req ("cv") (.ok ("80")) []).1,
        (get_openai_score c3Req ("cv") (.ok ("80")) []).2) := by
  have h := (c3_cache_discipline c3Req ("cv") []).2.1 ("80") 80 rfl rfl
  exact ⟨rfl, rfl, h.1, h.2.1 (.error ("down"))⟩

/-! ## C5: the voting reduction -/

lemma count_zero_add_count_one (l : List ℚ) (h : ∀ x ∈ l, x = 0 ∨ x = 1) :
    l.count 0 + l.count 1 = l.length := by
  induction l with
  | nil => simp
  | cons x rest ih =>
    have hr := ih (fun y hy => h y (List.mem_cons_of_mem x hy))
    rcases h x (List.mem_cons_self x rest) with h0 | h1 <;> subst x <;>
      simp [List.count_cons, hr, zero_ne_one, one_ne_zero] <;> omega

lemma get?_eq_some_getD (l : List ℚ) (n : ℕ) (h : n < l.length) :
    l.get? n = some (l.getD n 0) := by
  rw [List.getD_eq_getElem?_getD, List.get?_eq_getElem?,
    List.getElem?_eq_getElem h]
  rfl

/-- C5: the voting reduction returns, for boolean requirements, the majority
of the 0-or-1 answers with an even split resolved in favor of 0 (the result
is 1 exactly when the 1-answers are a strict majority), and, for score
requirements, the median of the answers after sorting, averaging the two
middle values when the count is even; in particular scores [40, 60, 80]
reduce to 60 and [40, 60] to 50. -/
theorem c5_voting_reduction :
    (∀ results : List ℚ, (∀ x ∈ results, x = 0 ∨ x = 1) →
      voting_reduce ("boolean") results =
        some (if 2 * results.count 1 > results.length then 1 else 0)) ∧
    (∀ results : List ℚ, results ≠ [] →
      ∃ sorted : List ℚ, sorted.Perm results ∧ sorted.Sorted (· ≤ ·) ∧
        voting_reduce ("score") results =
          some (if results.length % 2 = 0 then
            (sorted.getD (results.length / 2 - 1) 0 +
              sorted.getD (results.length / 2) 0) / 2
          else sorted.getD (results.length / 2) 0)) ∧
    voting_reduce ("score") [40, 60, 80] = some 60 ∧
    voting_reduce ("score") [40, 60] = some 50 := by
  refine ⟨fun results h => ?_, fun results hne => ?_, rfl, ?_⟩
  · have hc := count_zero_add_count_one results h
    have hle : results.count 1 ≤ results.length := List.count_le_length 1 results
    show some (if results.count 1 > results.count 0 then (1 : ℚ) else 0) =
      some (if 2 * results.count 1 > results.length then 1 else 0)
    congr 1
    exact if_congr (by omega) rfl rfl
  · refine ⟨results.insertionSort (fun a b => a ≤ b),
      List.perm_insertionSort _ results,
      List.sorted_insertionSort _ results, ?_⟩
    have hlen : (results.insertionSort (fun a b => a ≤ b)).length =
        results.length := List.length_insertionSort _ _
    have hpos : 0 < results.length := List.length_pos.mpr hne
    have hv : voting_reduce ("score") results =
        (if results.length % 2 = 0 then
          match (results.insertionSort (fun a b => a ≤ b)).get?
              (results.length / 2 - 1),
            (results.insertionSort (fun a b => a ≤ b)).get?
              (results.length / 2) with
          | some a, some b => some ((a + b) / 2)
          | _, _ => none
        else (results.insertionSort (fun a b => a ≤ b)).get?
          (results.length / 2)) := rfl
    by_cases hpar : results.length % 2 = 0
    · have h1 : results.length / 2 - 1 <
          (results.insertionSort (fun a b => a ≤ b)).length := by
        rw [hlen]; omega
      have h2 : results.length / 2 <
          (results.insertionSort (fun a b => a ≤ b)).length := by
        rw [hlen]; omega
      rw [hv, if_pos hpar, get?_eq_some_getD _ _ h1, get?_eq_some_getD _ _ h2,
        if_pos hpar]
    · have h2 : results.length / 2 <
          (results.insertionSort (fun a b => a ≤ b)).length := by
        rw [hlen]; omega
      rw [hv, if_neg hpar, get?_eq_some_getD _ _ h2, if_neg hpar]
  · have h40 : voting_reduce ("score") [40, 60] =
        some (((40 : ℚ) + 60) / 2) := rfl
    rw [h40]
    norm_num

/-- C5 witness: boolean majority [1, 1, 0] gives 1, the even split [1, 0]
resolves to 0, and the even-count median instance [40, 60] matches the
sorted-middle formula. -/
theorem c5_voting_reduction_witness :
    ((∀ x ∈ ([1, 1, 0] : List ℚ), x = 0 ∨ x = 1) ∧
      voting_reduce ("boolean") [1, 1, 0] = some 1) ∧
    ((∀ x ∈ ([1, 0] : List ℚ), x = 0 ∨ x = 1) ∧
      voting_reduce ("boolean") [1, 0] = some 0) ∧
    (([40, 60] : List ℚ) ≠ [] ∧
      ∃ sorted : List ℚ, sorted.Perm [40, 60] ∧ sorted.Sorted (· ≤ ·) ∧
        voting_reduce ("score") [40, 60] =
          some (if ([40, 60] : List ℚ).length % 2 = 0 then
            (sorted.getD (([40, 60] : List ℚ).length / 2 - 1) 0 +
              sorted.getD (([40, 60] : List ℚ).length / 2) 0) / 2
          else sorted.getD (([40, 60] : List ℚ).length / 2) 0)) := by
  have hb1 : ∀ x ∈ ([1, 1, 0] : List ℚ), x = 0 ∨ x = 1 := by norm_num
  have hb2 : ∀ x ∈ ([1, 0] : List ℚ), x = 0 ∨ x = 1 := by norm_num
  have hne : ([40, 60] : List ℚ) ≠ [] := by simp
  refine ⟨⟨hb1, ?_⟩, ⟨hb2, ?_⟩, hne, c5_voting_reduction.2.1 [40, 60] hne⟩
  · rw [c5_voting_reduction.1 [1, 1, 0] hb1]
    rfl
  · rw [c5_voting_reduction.1 [1, 0] hb2]
    rfl

/-! ## C6: the result filter -/

lemma all_boolean_iff (scores : List ScoreRecord) :
    ((scores.filter (fun s => s.type == "boolean")).all
      (fun s => s.score == 1) = true) ↔
    (∀ s ∈ scores, s.type = "boolean" → s.score = 1) := by
  simp only [List.all_eq_true, List.mem_filter, beq_iff_eq, and_imp]

lemma filter_one_eq_specKeep (params : FilterParams)
    (scores : List ScoreRecord)
    (h : ∀ s ∈ scores, (weight_map s.priority).isSome) :
    filter_one params scores = .ok (specKeep params scores) := by
  obtain ⟨v, hv⟩ : ∃ v, calculate_weighted_score scores = .ok v :=
    ⟨_, calculate_weighted_score_ok scores h⟩
  have hgetD : (calculate_weighted_score scores).toOption.getD 0 = v := by
    rw [hv]; rfl
  simp only [filter_one, specKeep, hv, hgetD]
  by_cases h1 : v < params.min_score
  · rw [if_pos h1, if_neg (fun hcon => (not_le.mpr h1) hcon.1)]
  · have hge : v ≥ params.min_score := not_lt.mp h1
    rw [if_neg h1]
    by_cases h2 : params.must_meet_all_boolean = true ∧
        ¬(∀ s ∈ scores, s.type = "boolean" → s.score = 1)
    · have hall : (scores.filter (fun s => s.type == "boolean")).all
          (fun s => s.score == 1) = false :=
        Bool.eq_false_iff.mpr (fun hc => h2.2 ((all_boolean_iff scores).mp hc))
      rw [h2.1, hall]
      simp only [Bool.not_false, Bool.and_true, if_true]
      rw [if_neg (fun hcon => h2.2 (hcon.2.1 trivial))]
    · have hP2 : params.must_meet_all_boolean = true →
          ∀ s ∈ scores, s.type = "boolean" → s.score = 1 := by
        intro hmb
        by_contra hb
        exact h2 ⟨hmb, hb⟩
      have hcond2 : (params.must_meet_all_boolean &&
          !((scores.filter (fun s => s.type == "boolean")).all
            (fun s => s.score == 1))) = false := by
        cases hmb : params.must_meet_all_boolean
        · rw [Bool.false_and]
        · rw [(all_boolean_iff scores).mpr (hP2 hmb)]
          rfl
      rw [hcond2]
      simp only [Bool.false_eq_true, if_false]
      by_cases h3 : params.selected_requirements = []
      · have hemp : params.selected_requirements.isEmpty = true :=
          List.isEmpty_iff.mpr h3
        rw [hemp]
        simp only [Bool.not_true, Bool.false_and, Bool.false_eq_true, if_false,
          if_true]
        rw [if_pos ⟨hge, hP2, fun hne => absurd h3 hne⟩,
          if_neg (fun hne => hne h3)]
      · have hemp : params.selected_requirements.isEmpty = false :=
          Bool.eq_false_iff.mpr (fun hc => h3 (List.isEmpty_iff.mp hc))
        rw [hemp]
        simp only [Bool.not_false, Bool.true_and, Bool.false_eq_true, if_false]
        by_cases h4 : scores.filter
            (fun s => params.selected_requirements.contains s.requirement) = []
        · have hpe : (scores.filter
              (fun s => params.selected_requirements.contains
                s.requirement)).isEmpty = true := List.isEmpty_iff.mpr h4
          rw [hpe]
          simp only [if_true]
          rw [if_neg (fun hcon => (hcon.2.2 h3) h4)]
        · have hpe : (scores.filter
              (fun s => params.selected_requirements.contains
                s.requirement)).isEmpty = false :=
            Bool.eq_false_iff.mpr (fun hc => h4 (List.isEmpty_iff.mp hc))
          rw [hpe]
          simp only [Bool.false_eq_true, if_false]
          rw [if_pos ⟨hge, hP2, fun _ => h4⟩, if_pos h3]

/-- C6: for every result set whose records carry valid priority labels, the
filter keeps a document exactly when its composite via the weighted
aggregator is at least min_score, every boolean record equals 1 whenever
must_meet_all_boolean is set (zero boolean records pass trivially), and,
when specific requirements are selected, the projection of its records onto
the selection is nonempty, in which case its records are replaced by that
projection. -/
theorem c6_apply_filters (results : List (String × List ScoreRecord))
    (params : FilterParams)
    (h : ∀ p ∈ results, ∀ s ∈ p.2, (weight_map s.priority).isSome) :
    apply_filters results params =
      .ok (results.filterMap
        (fun p => (specKeep params p.2).map (fun fs => (p.1, fs)))) := by
  induction results with
  | nil => rfl
  | cons p rest ih =>
    obtain ⟨name, scores⟩ := p
    have hhead : ∀ s ∈ scores, (weight_map s.priority).isSome :=
      h (name, scores) (List.mem_cons_self _ _)
    have hrest := ih (fun q hq => h q (List.mem_cons_of_mem _ hq))
    simp only [apply_filters, filter_one_eq_specKeep params scores hhead,
      hrest]
    cases hk : specKeep params scores <;>
      simp [hk, List.filterMap_cons]

/-- One unmet boolean requirement: composite 0. -/
def exC6Bad : List ScoreRecord := [⟨"a", 0, "High", "boolean"⟩]

/-- Two documents for the C6 witness. -/
def exC6Results : List (String × List ScoreRecord) :=
  [("cv1", exC4), ("cv2", exC6Bad)]

/-- Filter parameters of the C6 witness: threshold 70, no selection,
boolean requirements enforced. -/
def exC6Params : FilterParams := ⟨70, [], true⟩

/-- C6 witness: of two documents with composites 87.5 and 0, a filter at
threshold 70 with must_meet_all_boolean keeps exactly the first, with its
records unchanged. -/
theorem c6_apply_filters_witness :
    (∀ p ∈ exC6Results, ∀ s ∈ p.2, (weight_map s.priority).isSome) ∧
      apply_filters exC6Results exC6Params = .ok [("cv1", exC4)] := by
  have hval : ∀ p ∈ exC6Results, ∀ s ∈ p.2, (weight_map s.priority).isSome :=
    by decide
  have hc1 : (calculate_weighted_score exC4).toOption.getD 0 = 175 / 2 := by
    rw [calculate_weighted_score_ok exC4 (by decide)]
    simp [exC4, weightOf, valueOf, weight_map, Except.toOption]
    norm_num
  have hc2 : (calculate_weighted_score exC6Bad).toOption.getD 0 = 0 := by
    rw [calculate_weighted_score_ok exC6Bad (by decide)]
    simp [exC6Bad, weightOf, valueOf, weight_map, Except.toOption]
  have hk1 : specKeep exC6Params exC4 = some exC4 := by
    simp only [specKeep]
    rw [if_pos ⟨by rw [hc1]; norm_num [exC6Params],
      fun _ => by decide, fun hne => absurd rfl hne⟩]
    rw [if_neg (fun hne => hne rfl)]
  have hk2 : specKeep exC6Params exC6Bad = none := by
    simp only [specKeep]
    rw [if_neg (fun hcon => by
      have h1 := hcon.1
      rw [hc2] at h1
      norm_num [exC6Params] at h1)]
  refine ⟨hval, ?_⟩
  rw [c6_apply_filters exC6Results exC6Params hval]
  simp [exC6Results, List.filterMap_cons, hk1, hk2]

end CVScorer
